import Mathlib

/-!
Shallow embedding of the OmniVenAPI user-account service core
(`src/models.py`, `src/utils/validations.py`, `src/routers/auth.py`,
`src/routers/authentication.py`, `src/routers/register.py`,
`src/routers/user.py`) and proofs about the frozen claims.

Conventions of the embedding:
* SQLAlchemy rows become a Lean structure `MobileUser`; the users table is a
  `List MobileUser`, the `acc_company` table a `List Nat` of company ids.
* `db.query(...).filter(...).first()` becomes `List.find?` / `List.filter`.
* `HTTPException` outcomes become the `ApiError` sum; each endpoint is a pure
  function returning `Except ApiError _`, and mutating endpoints additionally
  return the resulting store, state-passing style.
* Python truthiness on optional integers (`if exclude_user_id:`,
  `if user_data.company_id:`) is translated exactly: `none` and `some 0` are
  falsy.  Truthiness on optional strings (`if user_data.password:`) treats
  `none` and `some ""` as falsy.
* Timestamps are `Nat` seconds; the clock is passed explicitly.
-/

namespace OmniVen

/-- Row of the `mobile_users` table (`src/models.py`, class `MobileUser`).
`date_login` is the column declared with `onupdate=func.now()`: it is set by
the ORM whenever an UPDATE statement touches the row. Nullable columns are
`Option`. -/
structure MobileUser where
  user_id : Nat
  company_id : Option Nat
  email : String
  password : String
  username : String
  date_c : Nat
  date_expiration : Option Nat
  date_login : Option Nat
  notification : Nat
  verification_code : Option String
  device : Option String
  phone_number : String
  status : Nat
  deriving Repr, DecidableEq

/-- The backing store a request handler sees: the `mobile_users` rows, the
`acc_company` ids (only existence of a `company_id` is ever queried), and the
next auto-increment primary key. -/
structure Store where
  users : List MobileUser
  companies : List Nat
  nextId : Nat
  deriving Repr, DecidableEq

/-- The `HTTPException` outcomes raised by the embedded handlers.
`badRequest` is the 400 raised for a missing company; `validationConflict`
is the 400 raised by `validate_user_unique_fields` carrying the list of
conflicting field names; `internalError` stands for an uncaught Python
exception (e.g. an `AttributeError` on `None`). -/
inductive ApiError where
  | badRequest (detail : String)
  | validationConflict (fields : List String)
  | notFound
  | forbidden
  | unauthorized
  | internalError
  deriving Repr, DecidableEq

/-! ### Credential hasher

`passlib`'s bcrypt context is a library collaborator, not code of this
repository. -/

/-- Modelled from the spec: "hash(plaintext) -> opaque digest using a slow,
salted, one-way algorithm". The per-invocation random salt is abstracted
away (no claim in play depends on it); the digest is modelled as the
plaintext carried under a scheme tag, which keeps the digest distinct from
every plaintext and makes verification exact recomputation. -/
def bcryptHash (p : String) : String := "$2b$" ++ p

/-- Modelled from the spec: "verify(plaintext, digest) -> bool recomputes
using the embedded salt/parameters"; "verify returns false on any malformed
digest rather than raising". Total function into `Bool`: any string that is
not a well-formed digest of the given plaintext yields `false`. -/
def bcryptVerify (p digest : String) : Bool := digest == bcryptHash p

/-! ### Token service

`create_access_token` is source code (`src/routers/auth.py` lines 39-42);
the `jose` JWT encode/decode it calls is a library collaborator. -/

/-- Claims carried by the token: `{"sub": username, "id": user_id, "exp": expire}`. -/
structure JwtPayload where
  sub : String
  id : Nat
  exp : Nat
  deriving Repr, DecidableEq

/-- Modelled from the spec: "signs the payload with a server-held symmetric
secret using a standard keyed-hash signature scheme". The keyed hash is
modelled as an injective pairing of the key with the payload fields. -/
def hmacSign (key : String) (p : JwtPayload) : String :=
  key ++ "|" ++ p.sub ++ "|" ++ toString p.id ++ "|" ++ toString p.exp

/-- A serialized token: payload plus integrity signature. -/
structure Jwt where
  payload : JwtPayload
  sig : String
  deriving Repr, DecidableEq

/-- Token-service rejection reasons (`InvalidSignature`, `Expired`). -/
inductive JwtError where
  | invalidSignature
  | expired
  deriving Repr, DecidableEq

/-- Modelled from the spec: `jose.jwt.encode` attaches the keyed-hash
signature over the payload. -/
def jwt_encode (p : JwtPayload) (key : String) : Jwt :=
  { payload := p, sig := hmacSign key p }

/-- Modelled from the spec: `jose.jwt.decode` "recomputes the signature over
the claimed payload and rejects on signature mismatch (InvalidSignature)"
and "on now > expiresAt (Expired)". -/
def jwt_decode (t : Jwt) (key : String) (now : Nat) : Except JwtError JwtPayload :=
  if t.sig ≠ hmacSign key t.payload then .error .invalidSignature
  else if t.payload.exp < now then .error .expired
  else .ok t.payload

/-- Module constant of `src/routers/auth.py`. -/
def SECRET_KEY : String := "OmniVenAPISecretKey123!@#"

/-- Module constant of `src/routers/auth.py` (`ACCESS_TOKEN_EXPIRE_DAYS = 365`). -/
def ACCESS_TOKEN_EXPIRE_DAYS : Nat := 365

/-- Seconds in a day, to express `timedelta(days=n)` over `Nat` seconds. -/
def secondsPerDay : Nat := 86400

/-- Embeds `create_access_token` (`src/routers/auth.py` lines 39-42):
`expire = now + timedelta(days=365)`; payload `{sub, id, exp}`. -/
def create_access_token (username : String) (user_id : Nat) (now : Nat) : Jwt :=
  let expire := now + ACCESS_TOKEN_EXPIRE_DAYS * secondsPerDay
  jwt_encode { sub := username, id := user_id, exp := expire } SECRET_KEY

/-! ### Authenticator and session resolution -/

/-- Embeds `authenticate_user` (`src/routers/auth.py` lines 32-36): look the
user up by username; return `none` if absent or if password verification
fails, the user otherwise. -/
def authenticate_user (username password : String) (users : List MobileUser) :
    Option MobileUser :=
  match users.find? (fun u => u.username == username) with
  | none => none
  | some user => if bcryptVerify password user.password then some user else none

/-- Embeds `get_current_user` of `src/routers/auth.py` (lines 61-72), the
resolver the `/user` endpoints import. A decode failure (`JWTError`) raises
401; falsy `sub` or `id` claims raise 401; otherwise the function returns
`db.query(...).first()` directly — possibly `None` when the subject account
no longer exists, with no 401 raised. -/
def get_current_user (token : Jwt) (now : Nat) (users : List MobileUser) :
    Except ApiError (Option MobileUser) :=
  match jwt_decode token SECRET_KEY now with
  | .error _ => .error .unauthorized
  | .ok payload =>
      if payload.sub == "" || payload.id == 0 then .error .unauthorized
      else .ok (users.find? (fun u => u.user_id == payload.id))

/-- Embeds `get_current_user` of `src/routers/authentication.py`
(lines 106-140), the variant that additionally raises
`401 "User not found"` when the subject id has no account. -/
def get_current_user_authentication (token : Jwt) (now : Nat)
    (users : List MobileUser) : Except ApiError MobileUser :=
  match jwt_decode token SECRET_KEY now with
  | .error _ => .error .unauthorized
  | .ok payload =>
      if payload.sub == "" || payload.id == 0 then .error .unauthorized
      else
        match users.find? (fun u => u.user_id == payload.id) with
        | none => .error .unauthorized
        | some user => .ok user

/-- Embeds `login_for_access_token` (`src/routers/auth.py` lines 45-58):
authenticate, 401 on failure, otherwise issue a token. The handler performs
no store write, so the store passes through unchanged in both branches. -/
def login_for_access_token (s : Store) (username password : String) (now : Nat) :
    Except ApiError Jwt × Store :=
  match authenticate_user username password s.users with
  | none => (.error .unauthorized, s)
  | some user => (.ok (create_access_token user.username user.user_id now), s)

/-! ### Uniqueness validation (`src/utils/validations.py`) -/

/-- Python truthiness of an optional integer: `None` and `0` are falsy.
`validate_user_unique_fields` guards every exclusion with
`if exclude_user_id:`, so an exclusion id of `0` is never applied. -/
def pyTruthyNat : Option Nat → Bool
  | none => false
  | some i => i != 0

/-- One field block of `validate_user_unique_fields`: when the value was
supplied, query the rows matching it, drop the excluded row only when
`exclude_user_id` is truthy, and record the field key iff a row remains
(`if exists.first()`). -/
def uniqueCheckHits (users : List MobileUser) (f : MobileUser → String)
    (v : String) (exclude_user_id : Option Nat) : Bool :=
  let q := users.filter (fun u => f u == v)
  let q := if pyTruthyNat exclude_user_id then
      q.filter (fun u => some u.user_id != exclude_user_id)
    else q
  !q.isEmpty

/-- The contribution of one field block to the conflict dictionary: the key
when the check hit, nothing otherwise. -/
def uniqueBlock (key : String) (value : Option String) (hit : String → Bool) :
    List String :=
  match value with
  | some v => if hit v then [key] else []
  | none => []

/-- Embeds `validate_user_unique_fields` (`src/utils/validations.py` lines
10-65). The Python function accumulates a `conflicts` dict keyed `"email"`,
`"username"`, `"phone_number"` in that insertion order and raises a 400 with
it when nonempty; we return the ordered key list and let callers raise on
nonemptiness. Each block runs the same query/exclude/first pattern. -/
def validate_user_unique_fields (users : List MobileUser)
    (email username phone_number : Option String)
    (exclude_user_id : Option Nat) : List String :=
  uniqueBlock "email" email
      (fun v => uniqueCheckHits users (fun u => u.email) v exclude_user_id)
    ++ uniqueBlock "username" username
      (fun v => uniqueCheckHits users (fun u => u.username) v exclude_user_id)
    ++ uniqueBlock "phone_number" phone_number
      (fun v => uniqueCheckHits users (fun u => u.phone_number) v exclude_user_id)

/-- Semantic collision predicate implemented by the code: some live record
carries the value, and the record is only discounted when the exclusion id
was supplied and nonzero. -/
def collidesOutsideNonzeroExclude (users : List MobileUser)
    (f : MobileUser → String) (v : String) (ex : Option Nat) : Prop :=
  ∃ u, u ∈ users ∧ f u = v ∧ ∀ i, ex = some i → i ≠ 0 → u.user_id ≠ i

/-- Collision predicate following the spec's words ("excluding excludeId
when given"): the record is discounted whenever it is the one identified by
the supplied exclusion id, zero included. Kept for comparison with the code
predicate `collidesOutsideNonzeroExclude`. -/
def collidesOutsideExclude (users : List MobileUser)
    (f : MobileUser → String) (v : String) (ex : Option Nat) : Prop :=
  ∃ u, u ∈ users ∧ f u = v ∧ some u.user_id ≠ ex

instance (users : List MobileUser) (f : MobileUser → String) (v : String)
    (ex : Option Nat) : Decidable (collidesOutsideExclude users f v ex) := by
  unfold collidesOutsideExclude; infer_instance

/-! ### Registration (`src/routers/register.py`) -/

/-- Embeds `MobileUserCreateRequest` (`src/routers/schemas/users.py`), the
public registration schema. -/
structure MobileUserCreateRequest where
  email : String
  username : String
  password : String
  phone_number : String
  company_id : Option Nat
  deriving Repr, DecidableEq

/-- Embeds `register_user` (`src/routers/register.py` lines 31-103):
company existence is checked only when `company_id` is truthy; uniqueness of
email/username/phone is validated with no exclusion; the new row gets
`status=1`, `notification=True` (stored as 1), hashed password, creation
time `now`, and the store-assigned next id. -/
def register_user (s : Store) (user_data : MobileUserCreateRequest) (now : Nat) :
    Except ApiError MobileUser × Store :=
  let companyInvalid :=
    match user_data.company_id with
    | some cid => cid != 0 && !(s.companies.contains cid)
    | none => false
  if companyInvalid then (.error (.badRequest "Invalid company ID"), s)
  else
    let conflicts := validate_user_unique_fields s.users (some user_data.email)
      (some user_data.username) (some user_data.phone_number) none
    if conflicts.isEmpty then
      let new_user : MobileUser :=
        { user_id := s.nextId
          company_id := user_data.company_id
          email := user_data.email
          username := user_data.username
          password := bcryptHash user_data.password
          date_c := now
          date_expiration := none
          date_login := none
          notification := 1
          verification_code := none
          device := none
          phone_number := user_data.phone_number
          status := 1 }
      (.ok new_user, { s with users := s.users ++ [new_user], nextId := s.nextId + 1 })
    else (.error (.validationConflict conflicts), s)

/-! ### Protected user endpoints (`src/routers/user.py`) -/

/-- Embeds the request body of the update endpoint (the `MobileUserBase`
fields of `src/routers/schemas/users.py` plus the optional password of
`MobileUserUpdateRequest`, which is the shape `update_user` reads). -/
structure MobileUserRequest where
  company_id : Nat
  email : String
  username : String
  password : Option String
  status : Nat
  phone_number : String
  date_expiration : Option Nat
  notification : Nat
  device : Option String
  deriving Repr, DecidableEq

/-- The guard `if current_user and current_user.status != 5 and
current_user.user_id != user_id:` shared verbatim by `update_user` and
`delete_user` (`src/routers/user.py` lines 172-177 and 239-244): denial
requires a resolved caller that is neither admin nor the target. -/
def ownerOrAdminDenied (current_user : Option MobileUser) (user_id : Nat) : Bool :=
  match current_user with
  | none => false
  | some cu => cu.status != 5 && cu.user_id != user_id

/-- Embeds `get_all_users` (`src/routers/user.py` lines 28-40): admin only.
A `None` caller makes `current_user.status` raise `AttributeError`, an
uncaught 500. -/
def get_all_users (users : List MobileUser) (current_user : Option MobileUser) :
    Except ApiError (List MobileUser) :=
  match current_user with
  | none => .error .internalError
  | some cu => if cu.status != 5 then .error .forbidden else .ok users

/-- Embeds `get_user_by_id` (`src/routers/user.py` lines 43-71): look the
target up, 404 when absent, then deny with 403 unless the caller is admin or
the target itself. A `None` caller reaching the check raises
`AttributeError`, an uncaught 500. -/
def get_user_by_id (users : List MobileUser) (user_id : Nat)
    (current_user : Option MobileUser) : Except ApiError MobileUser :=
  match users.find? (fun u => u.user_id == user_id) with
  | none => .error .notFound
  | some user =>
      match current_user with
      | none => .error .internalError
      | some cu =>
          if cu.status != 5 && cu.user_id != user_id then .error .forbidden
          else .ok user

/-- Embeds `update_user` (`src/routers/user.py` lines 159-223), in source
order: owner-or-admin check, company existence (400), target lookup (404),
uniqueness validation excluding the target id (400 conflict), then the field
writes and commit. `if user_data.password:` keeps the old hash on a falsy
(absent or empty) password. The commit of an UPDATE fires the
`onupdate=func.now()` of `date_login` (`src/models.py` line 32), so the
written row carries `date_login = some now`. -/
def update_user (s : Store) (user_data : MobileUserRequest) (user_id : Nat)
    (current_user : Option MobileUser) (now : Nat) :
    Except ApiError MobileUser × Store :=
  if ownerOrAdminDenied current_user user_id then (.error .forbidden, s)
  else if !(s.companies.contains user_data.company_id) then
    (.error (.badRequest "Company does not exist"), s)
  else
    match s.users.find? (fun u => u.user_id == user_id) with
    | none => (.error .notFound, s)
    | some user =>
        let conflicts := validate_user_unique_fields s.users (some user_data.email)
          (some user_data.username) (some user_data.phone_number) (some user_id)
        if conflicts.isEmpty then
          let updated : MobileUser :=
            { user with
              company_id := some user_data.company_id
              email := user_data.email
              username := user_data.username
              status := user_data.status
              phone_number := user_data.phone_number
              date_expiration := user_data.date_expiration
              notification := user_data.notification
              device := user_data.device
              password :=
                match user_data.password with
                | some p => if p != "" then bcryptHash p else user.password
                | none => user.password
              date_login := some now }
          (.ok updated,
            { s with users := s.users.map (fun u => if u.user_id == user_id then updated else u) })
        else (.error (.validationConflict conflicts), s)

/-- Embeds `delete_user` (`src/routers/user.py` lines 227-253): owner-or-admin
check, target lookup (404), then delete and commit. -/
def delete_user (s : Store) (user_id : Nat) (current_user : Option MobileUser) :
    Except ApiError Unit × Store :=
  if ownerOrAdminDenied current_user user_id then (.error .forbidden, s)
  else
    match s.users.find? (fun u => u.user_id == user_id) with
    | none => (.error .notFound, s)
    | some _ => (.ok (), { s with users := s.users.filter (fun u => u.user_id != user_id) })

/-! ### External representation (`src/routers/schemas/users.py`) -/

/-- Embeds `MobileUserResponse`: the `MobileUserBase` fields plus the
`password` field the schema declares ("Response model that includes
password"). FastAPI shapes every user-returning endpoint's output with it. -/
structure MobileUserResponse where
  company_id : Option Nat
  email : String
  username : String
  status : Nat
  phone_number : String
  date_expiration : Option Nat
  notification : Nat
  device : Option String
  password : String
  deriving Repr, DecidableEq

/-- The field names `MobileUserResponse` serializes, in declaration order. -/
def mobileUserResponseFields : List String :=
  ["company_id", "email", "username", "status", "phone_number",
   "date_expiration", "notification", "device", "password"]

/-- The response-model projection: each declared field is read off the
returned row by name, `password` included. -/
def toResponse (u : MobileUser) : MobileUserResponse :=
  { company_id := u.company_id
    email := u.email
    username := u.username
    status := u.status
    phone_number := u.phone_number
    date_expiration := u.date_expiration
    notification := u.notification
    device := u.device
    password := u.password }

/-! ### Concrete sample data for witnesses and counterexamples -/

/-- A regular (non-admin) account, id 1. -/
def ann : MobileUser :=
  { user_id := 1
    company_id := some 1
    email := "a@x.com"
    password := bcryptHash "secret1"
    username := "ann"
    date_c := 10
    date_expiration := none
    date_login := none
    notification := 1
    verification_code := none
    device := none
    phone_number := "+10000000000"
    status := 1 }

/-- An administrator account (status 5), id 9. -/
def adminUser : MobileUser :=
  { user_id := 9
    company_id := some 1
    email := "root@x.com"
    password := bcryptHash "hunter22"
    username := "root"
    date_c := 10
    date_expiration := none
    date_login := none
    notification := 0
    verification_code := none
    device := none
    phone_number := "+19999999999"
    status := 5 }

/-- A pathological row whose primary key is 0, to probe the truthiness guard
of the exclusion id. -/
def zeroIdUser : MobileUser :=
  { user_id := 0
    company_id := none
    email := "a@x.com"
    password := bcryptHash "pw0000"
    username := "zero"
    date_c := 0
    date_expiration := none
    date_login := none
    notification := 0
    verification_code := none
    device := none
    phone_number := "+10000000001"
    status := 1 }

/-- A store holding `ann` and `adminUser` and one company. -/
def sampleStore : Store :=
  { users := [ann, adminUser], companies := [1], nextId := 10 }

/-- An update body that passes the company and uniqueness checks of
`update_user` against `sampleStore` for target id 1. -/
def annUpdate : MobileUserRequest :=
  { company_id := 1
    email := "a@x.com"
    username := "ann"
    password := none
    status := 1
    phone_number := "+10000000000"
    date_expiration := none
    notification := 0
    device := none }

/-- The registration request of the spec's end-to-end example. -/
def annRegister : MobileUserCreateRequest :=
  { email := "a@x.com"
    username := "ann"
    password := "secret1"
    phone_number := "+10000000000"
    company_id := none }

/-- The empty store. -/
def emptyStore : Store := { users := [], companies := [], nextId := 1 }

/-- An account whose stored password column holds a malformed digest. -/
def mallory : MobileUser :=
  { user_id := 3
    company_id := none
    email := "mal@x.com"
    password := "x"
    username := "mal"
    date_c := 0
    date_expiration := none
    date_login := none
    notification := 0
    verification_code := none
    device := none
    phone_number := "+10000000002"
    status := 1 }

/-- The row `register_user emptyStore annRegister 50` creates. -/
def registeredAnn : MobileUser :=
  { user_id := 1
    company_id := none
    email := "a@x.com"
    password := bcryptHash "secret1"
    username := "ann"
    date_c := 50
    date_expiration := none
    date_login := none
    notification := 1
    verification_code := none
    device := none
    phone_number := "+10000000000"
    status := 1 }

/-- The store `register_user emptyStore annRegister 50` leaves behind. -/
def registeredAnnStore : Store :=
  { users := [registeredAnn], companies := [], nextId := 2 }

/-- A token issued at time 0 for subject id 7, an id no store below holds. -/
def ghostToken : Jwt := create_access_token "ghost" 7 0

/-! ## Helper lemmas -/

/-- The shared mutation guard denies exactly the callers that are neither
the target nor an administrator. -/
theorem ownerOrAdminDenied_some_iff (cu : MobileUser) (target : Nat) :
    ownerOrAdminDenied (some cu) target = true
      ↔ ¬ (cu.user_id = target ∨ cu.status = 5) := by
  simp only [ownerOrAdminDenied, Bool.and_eq_true, bne_iff_ne, ne_eq, not_or]
  tauto

/-- Update reports `Forbidden` exactly when the mutation guard denies. -/
theorem update_forbidden_iff (s : Store) (d : MobileUserRequest) (target : Nat)
    (cu : Option MobileUser) (now : Nat) :
    (update_user s d target cu now).1 = .error .forbidden
      ↔ ownerOrAdminDenied cu target = true := by
  cases hb : ownerOrAdminDenied cu target with
  | true => simp [update_user, hb]
  | false =>
      simp only [update_user, hb, Bool.false_eq_true, if_false, iff_false]
      split
      · simp
      · split
        · simp
        · split <;> simp

/-- Delete reports `Forbidden` exactly when the mutation guard denies. -/
theorem delete_forbidden_iff (s : Store) (target : Nat) (cu : Option MobileUser) :
    (delete_user s target cu).1 = .error .forbidden
      ↔ ownerOrAdminDenied cu target = true := by
  cases hb : ownerOrAdminDenied cu target with
  | true => simp [delete_user, hb]
  | false =>
      simp only [delete_user, hb, Bool.false_eq_true, if_false, iff_false]
      split <;> simp

/-- The update handler either passes the store through or succeeds. -/
theorem update_state_cases (s : Store) (d : MobileUserRequest) (target : Nat)
    (cu : Option MobileUser) (now : Nat) :
    (update_user s d target cu now).2 = s
      ∨ ∃ u, (update_user s d target cu now).1 = .ok u := by
  simp only [update_user]
  split
  · exact .inl rfl
  · split
    · exact .inl rfl
    · split
      · exact .inl rfl
      · split
        · exact .inr ⟨_, rfl⟩
        · exact .inl rfl

/-- Any error outcome of the update handler leaves the store as given. -/
theorem update_error_state (s : Store) (d : MobileUserRequest) (target : Nat)
    (cu : Option MobileUser) (now : Nat) (e : ApiError)
    (h : (update_user s d target cu now).1 = .error e) :
    (update_user s d target cu now).2 = s := by
  rcases update_state_cases s d target cu now with h2 | ⟨u, h2⟩
  · exact h2
  · rw [h2] at h
    simp at h

/-- The delete handler either passes the store through or succeeds. -/
theorem delete_state_cases (s : Store) (target : Nat) (cu : Option MobileUser) :
    (delete_user s target cu).2 = s
      ∨ (delete_user s target cu).1 = .ok () := by
  simp only [delete_user]
  split
  · exact .inl rfl
  · split
    · exact .inl rfl
    · exact .inr rfl

/-- Any error outcome of the delete handler leaves the store as given. -/
theorem delete_error_state (s : Store) (target : Nat) (cu : Option MobileUser)
    (e : ApiError) (h : (delete_user s target cu).1 = .error e) :
    (delete_user s target cu).2 = s := by
  rcases delete_state_cases s target cu with h2 | h2
  · exact h2
  · rw [h2] at h
    simp at h

/-- A list is nonempty in the `Bool` sense iff it has a member. -/
theorem not_isEmpty_iff_exists_mem (l : List MobileUser) :
    (!l.isEmpty) = true ↔ ∃ x, x ∈ l := by
  cases l <;> simp

/-- One uniqueness block hits exactly when a live record collides under the
code's (truthiness-guarded) exclusion semantics. -/
theorem uniqueCheckHits_iff (users : List MobileUser) (f : MobileUser → String)
    (v : String) (ex : Option Nat) :
    uniqueCheckHits users f v ex = true
      ↔ collidesOutsideNonzeroExclude users f v ex := by
  unfold uniqueCheckHits collidesOutsideNonzeroExclude
  rw [not_isEmpty_iff_exists_mem]
  cases ex with
  | none => simp [pyTruthyNat, List.mem_filter]
  | some i =>
      by_cases hi : i = 0
      · subst hi; simp [pyTruthyNat, List.mem_filter]
      · simp only [pyTruthyNat, hi, List.mem_filter, bne_iff_ne, ne_eq,
          Option.some.injEq, forall_eq', if_true, Bool.and_eq_true, beq_iff_eq,
          not_false_eq_true, forall_true_left, bne_self_eq_false]
        exact exists_congr fun x => by tauto

/-- Membership in a conflict block means the block's key with a supplied
value on which the check hit. -/
theorem mem_uniqueBlock (x key : String) (value : Option String)
    (hit : String → Bool) :
    x ∈ uniqueBlock key value hit
      ↔ x = key ∧ ∃ v, value = some v ∧ hit v = true := by
  unfold uniqueBlock
  cases value with
  | none => simp
  | some v => by_cases h : hit v <;> simp [h]

/-- Decoding an encoded token under the matching key only checks expiry. -/
theorem jwt_decode_encode (p : JwtPayload) (key : String) (now : Nat) :
    jwt_decode (jwt_encode p key) key now =
      if p.exp < now then .error .expired else .ok p := by
  unfold jwt_decode jwt_encode
  simp

/-- Digest length under the modelled hasher. -/
theorem bcryptHash_length (q : String) :
    (bcryptHash q).length = 4 + q.length := by
  unfold bcryptHash
  rw [String.length_append, show ("$2b$" : String).length = 4 from rfl]

/-- Inversion of a successful registration: the created row stores the
hashed password and status 1. -/
theorem register_user_ok (s : Store) (d : MobileUserCreateRequest) (now : Nat)
    (u : MobileUser) (s' : Store) (h : register_user s d now = (.ok u, s')) :
    u.password = bcryptHash d.password ∧ u.status = 1 := by
  simp only [register_user] at h
  split at h
  · simp at h
  · split at h
    · rw [Prod.mk.injEq] at h
      obtain ⟨h1, -⟩ := h
      rw [Except.ok.injEq] at h1
      subst h1
      exact ⟨rfl, rfl⟩
    · simp at h

/-! ## Claim theorems -/

/-- C1: for each protected operation (GetById, Update, Delete) and every
caller account resolved from the token, the operation proceeds past the
owner-or-admin access check if and only if the caller's user id equals the
target user id or the caller's status equals 5; otherwise that check fails
with Forbidden. For GetById the check is the one applied once the target
row has been looked up. -/
theorem ownerOrAdmin_gates_protected_operations (s : Store) (cu : MobileUser)
    (target : Nat) (d : MobileUserRequest) (now : Nat) :
    ((update_user s d target (some cu) now).1 = .error .forbidden
        ↔ ¬ (cu.user_id = target ∨ cu.status = 5))
    ∧ ((delete_user s target (some cu)).1 = .error .forbidden
        ↔ ¬ (cu.user_id = target ∨ cu.status = 5))
    ∧ (∀ u, s.users.find? (fun v => v.user_id == target) = some u →
        (get_user_by_id s.users target (some cu) = .error .forbidden
          ↔ ¬ (cu.user_id = target ∨ cu.status = 5))) := by
  refine ⟨?_, ?_, ?_⟩
  · rw [update_forbidden_iff, ownerOrAdminDenied_some_iff]
  · rw [delete_forbidden_iff, ownerOrAdminDenied_some_iff]
  · intro u hu
    unfold get_user_by_id
    rw [hu, ← ownerOrAdminDenied_some_iff]
    unfold ownerOrAdminDenied
    cases hb : (cu.status != 5 && cu.user_id != target) <;> simp [hb]

/-- Witness for C1 at a concrete input: the regular account `ann` (id 1,
status 1) updating account 9 is rejected with Forbidden. -/
theorem ownerOrAdmin_gates_protected_operations_witness :
    (update_user sampleStore annUpdate 9 (some ann) 0).1 = .error .forbidden :=
  (ownerOrAdmin_gates_protected_operations sampleStore ann 9 annUpdate 0).1.mpr
    (by decide)

/-- C4: whenever Update or Delete ends in Forbidden, NotFound, or a
uniqueness ValidationConflict, the user store is exactly the one the
request started from — every failed check short-circuits before the
mutation, with no partial write. -/
theorem failed_checks_leave_store_unchanged (s : Store) (d : MobileUserRequest)
    (target : Nat) (cu : Option MobileUser) (now : Nat) (e : ApiError) :
    ((update_user s d target cu now).1 = .error e →
      (e = .forbidden ∨ e = .notFound ∨ ∃ fs, e = .validationConflict fs) →
      (update_user s d target cu now).2 = s)
    ∧ ((delete_user s target cu).1 = .error e →
      (e = .forbidden ∨ e = .notFound) →
      (delete_user s target cu).2 = s) := by
  constructor
  · intro h _
    exact update_error_state s d target cu now e h
  · intro h _
    exact delete_error_state s target cu e h

/-- Witness for C4 at a concrete input: `ann` attempting to update account 9
is denied and the store is untouched. -/
theorem failed_checks_leave_store_unchanged_witness :
    (update_user sampleStore annUpdate 9 (some ann) 0).2 = sampleStore :=
  (failed_checks_leave_store_unchanged sampleStore annUpdate 9 (some ann) 0
      .forbidden).1 rfl (.inl rfl)

/-- C7 counterexample: the regular account `ann` (status 1) requesting id 2,
which does not exist, receives NotFound — not Forbidden — so the error
class does reveal whether the resource exists. -/
theorem get_user_absent_target_counterexample :
    ann.status ≠ 5 ∧ ann.user_id ≠ 2
    ∧ get_user_by_id [ann] 2 (some ann) = .error .notFound
    ∧ get_user_by_id [ann] 2 (some ann) ≠ .error .forbidden := by
  refine ⟨by decide, by decide, rfl, ?_⟩
  intro h
  rw [show get_user_by_id [ann] 2 (some ann) = .error .notFound from rfl] at h
  simp at h

/-- C7 (amended): a non-admin caller requesting a foreign id receives
Forbidden when the target row exists and NotFound when it does not — the
existence check runs before the access check, so the error class reveals
existence. -/
theorem get_user_nonadmin_cross_result (users : List MobileUser)
    (cu : MobileUser) (target : Nat) (h5 : cu.status ≠ 5)
    (hid : cu.user_id ≠ target) :
    get_user_by_id users target (some cu) =
      match users.find? (fun u => u.user_id == target) with
      | some _ => .error .forbidden
      | none => .error .notFound := by
  unfold get_user_by_id
  cases hf : users.find? (fun u => u.user_id == target) with
  | none => rfl
  | some u => simp [h5, hid]

/-- Witness for the amended C7 at a concrete input: `ann` requesting the
existing foreign account 9 receives Forbidden. -/
theorem get_user_nonadmin_cross_result_witness :
    get_user_by_id [ann, adminUser] 9 (some ann) = .error .forbidden := by
  have h := get_user_nonadmin_cross_result [ann, adminUser] ann 9
    (by decide) (by decide)
  rw [h]
  rfl

/-- C2 counterexample: `MobileUserResponse`, the response model of Register,
GetById, Update and ListAll, declares a `password` field, and a concrete
registration returns a row whose serialized `password` field is the stored
bcrypt digest — the representation is not password-free. -/
theorem response_password_field_counterexample :
    "password" ∈ mobileUserResponseFields
    ∧ ∃ u s2, register_user emptyStore annRegister 50 = (.ok u, s2)
        ∧ (toResponse u).password = u.password
        ∧ u.password = bcryptHash "secret1" := by
  exact ⟨by decide, registeredAnn, registeredAnnStore, rfl, rfl, rfl⟩

/-- C2 (amended): every UserAccount-returning response is shaped by
`MobileUserResponse`, which does contain a `password` field; the field
serializes the stored bcrypt digest of the account, and that digest is
never equal to the plaintext password. -/
theorem response_serializes_password_hash (s : Store)
    (d : MobileUserCreateRequest) (now : Nat) (u : MobileUser) (s' : Store)
    (h : register_user s d now = (.ok u, s')) :
    "password" ∈ mobileUserResponseFields
    ∧ (∀ v : MobileUser, (toResponse v).password = v.password)
    ∧ (toResponse u).password = bcryptHash d.password
    ∧ bcryptHash d.password ≠ d.password := by
  obtain ⟨hpw, -⟩ := register_user_ok s d now u s' h
  refine ⟨by decide, fun v => rfl, hpw, ?_⟩
  intro hEq
  have hlen := congrArg String.length hEq
  rw [bcryptHash_length] at hlen
  omega

/-- Witness for the amended C2 at a concrete input: the registration of
`ann` serializes the digest of "secret1". -/
theorem response_serializes_password_hash_witness :
    (toResponse registeredAnn).password = bcryptHash "secret1" :=
  (response_serializes_password_hash emptyStore annRegister 50 registeredAnn
      registeredAnnStore rfl).2.2.1

/-- C3: a token with a valid signature, unexpired and with well-formed
claims, whose subject id 7 has no account, decodes successfully; the
session resolver actually wired into the protected endpoints
(`routers/auth.get_current_user`) then returns `ok none` instead of
signalling Unauthorized — so `delete_user` invoked with that resolution
proceeds (here deleting account 9) — while the sibling
`routers/authentication.get_current_user` signals Unauthorized as the
claim states. -/
theorem orphan_token_resolution_divergence :
    jwt_decode ghostToken SECRET_KEY 0 =
        .ok { sub := "ghost", id := 7, exp := 365 * 86400 }
    ∧ get_current_user ghostToken 0 [] = .ok none
    ∧ (delete_user sampleStore 9 none).1 = .ok ()
    ∧ get_current_user_authentication ghostToken 0 [] = .error .unauthorized :=
  ⟨rfl, rfl, rfl, rfl⟩

/-- C5: a token issued at `now` carries expiration `now + 365` days (in
seconds); verifying it at the same instant returns the original subject
identity, and verifying it at any instant strictly past the expiration
returns Expired. -/
theorem issue_then_verify_roundtrip (username : String) (uid now : Nat) :
    (create_access_token username uid now).payload.exp = now + 365 * 86400
    ∧ jwt_decode (create_access_token username uid now) SECRET_KEY now =
        .ok { sub := username, id := uid, exp := now + 365 * 86400 }
    ∧ ∀ later, now + 365 * 86400 < later →
        jwt_decode (create_access_token username uid now) SECRET_KEY later =
          .error .expired := by
  have henc : create_access_token username uid now =
      jwt_encode { sub := username, id := uid, exp := now + 365 * 86400 }
        SECRET_KEY := rfl
  refine ⟨rfl, ?_, ?_⟩
  · rw [henc, jwt_decode_encode]
    simp [Nat.not_lt.mpr (Nat.le_add_right now (365 * 86400))]
  · intro later hlt
    rw [henc, jwt_decode_encode]
    simp only []
    rw [if_pos hlt]

/-- Witness for C5 at a concrete input: the token issued at time 0 verifies
at time 0 and is Expired one second past its 365-day expiration. -/
theorem issue_then_verify_roundtrip_witness :
    jwt_decode (create_access_token "u" 1 0) SECRET_KEY 0 =
        .ok { sub := "u", id := 1, exp := 0 + 365 * 86400 }
    ∧ jwt_decode (create_access_token "u" 1 0) SECRET_KEY (365 * 86400 + 1) =
        .error .expired :=
  ⟨(issue_then_verify_roundtrip "u" 1 0).2.1,
    (issue_then_verify_roundtrip "u" 1 0).2.2 (365 * 86400 + 1) (by decide)⟩

/-- C6 counterexample: with a single record of primary key 0 and excludeId
0, the check reports an email conflict even though the colliding record is
exactly the one identified by excludeId — the Python guard
`if exclude_user_id:` drops the exclusion for id 0. -/
theorem check_unique_exclude_zero_counterexample :
    validate_user_unique_fields [zeroIdUser] (some "a@x.com") none none
        (some 0) = ["email"]
    ∧ ¬ collidesOutsideExclude [zeroIdUser] (fun u => u.email) "a@x.com"
        (some 0) := by
  refine ⟨rfl, ?_⟩
  rintro ⟨u, hu, -, hne⟩
  simp only [List.mem_singleton] at hu
  subst hu
  exact hne rfl

/-- C6 (amended): the check reports exactly the supplied fields among
email, username, phone_number that collide with an existing record other
than the one identified by a nonzero excludeId; an excludeId of 0 (or
none) excludes nothing, and an empty report means no conflict is raised. -/
theorem check_unique_reports_colliding_fields (users : List MobileUser)
    (e? u? p? : Option String) (ex : Option Nat) :
    (∀ x, x ∈ validate_user_unique_fields users e? u? p? ex →
        x = "email" ∨ x = "username" ∨ x = "phone_number")
    ∧ ("email" ∈ validate_user_unique_fields users e? u? p? ex ↔
        ∃ v, e? = some v
          ∧ collidesOutsideNonzeroExclude users (fun u => u.email) v ex)
    ∧ ("username" ∈ validate_user_unique_fields users e? u? p? ex ↔
        ∃ v, u? = some v
          ∧ collidesOutsideNonzeroExclude users (fun u => u.username) v ex)
    ∧ ("phone_number" ∈ validate_user_unique_fields users e? u? p? ex ↔
        ∃ v, p? = some v
          ∧ collidesOutsideNonzeroExclude users (fun u => u.phone_number) v ex) := by
  unfold validate_user_unique_fields
  refine ⟨?_, ?_, ?_, ?_⟩ <;>
    simp [List.mem_append, mem_uniqueBlock, uniqueCheckHits_iff]
  tauto

/-- Witness for the amended C6 at a concrete input: registering a second
"a@x.com" against a store holding `ann` reports exactly the email field. -/
theorem check_unique_reports_colliding_fields_witness :
    "email" ∈ validate_user_unique_fields [ann] (some "a@x.com")
      (some "bob") (some "+15550001111") none :=
  (check_unique_reports_colliding_fields [ann] (some "a@x.com") (some "bob")
      (some "+15550001111") none).2.1.mpr
    ⟨"a@x.com", rfl, ann, by simp, rfl, by simp⟩

/-- C8: for every plaintext and every malformed digest (a string that is no
well-formed hash of any plaintext), verification returns false rather than
raising, and consequently authenticating a user whose stored digest is
malformed returns None rather than failing. -/
theorem verify_malformed_digest_false (p d : String)
    (hd : ∀ q, d ≠ bcryptHash q) :
    bcryptVerify p d = false
    ∧ ∀ (users : List MobileUser) (uname : String) (u : MobileUser),
        users.find? (fun v => v.username == uname) = some u → u.password = d →
        authenticate_user uname p users = none := by
  have hv : bcryptVerify p d = false := by
    unfold bcryptVerify
    exact beq_eq_false_iff_ne.mpr (hd p)
  refine ⟨hv, ?_⟩
  intro users uname u hfind hpw
  unfold authenticate_user
  rw [hfind]
  simp [hpw, hv]

/-- Witness for C8 at a concrete input: the stored digest "x" is malformed,
verification of "secret1" against it is false, and authenticating `mallory`
returns None. -/
theorem verify_malformed_digest_false_witness :
    bcryptVerify "secret1" "x" = false
    ∧ authenticate_user "mal" "secret1" [mallory] = none := by
  have hd : ∀ q, ("x" : String) ≠ bcryptHash q := by
    intro q hEq
    have hlen := congrArg String.length hEq
    rw [bcryptHash_length, show ("x" : String).length = 1 from rfl] at hlen
    omega
  have h := verify_malformed_digest_false "secret1" "x" hd
  exact ⟨h.1, h.2 [mallory] "mal" mallory rfl rfl⟩

/-- C9: a successful login issues a token but performs no store write at
all — `date_login` (lastLoginAt) of the authenticated account stays `none`,
contrary to the claim; and the field changes on a profile update (the ORM's
on-update hook), i.e. on an operation that is not an authentication. -/
theorem login_never_records_lastLogin :
    (login_for_access_token sampleStore "ann" "secret1" 100).1 =
        .ok (create_access_token "ann" 1 100)
    ∧ (login_for_access_token sampleStore "ann" "secret1" 100).2 = sampleStore
    ∧ ann.date_login = none
    ∧ (∃ u, (update_user sampleStore annUpdate 1 (some ann) 200).1 = .ok u
        ∧ u.date_login = some 200) :=
  ⟨rfl, rfl, rfl, ⟨_, rfl, rfl⟩⟩

/-- C10: every account the public Register endpoint creates has status 1 —
registration can never produce an administrator (status 5). -/
theorem register_creates_regular_account (s : Store)
    (d : MobileUserCreateRequest) (now : Nat) (u : MobileUser) (s' : Store)
    (h : register_user s d now = (.ok u, s')) :
    u.status = 1 ∧ u.status ≠ 5 := by
  obtain ⟨-, h1⟩ := register_user_ok s d now u s' h
  refine ⟨h1, ?_⟩
  rw [h1]
  decide

/-- Witness for C10 at a concrete input: the registration of `ann` yields a
status-1, non-admin account. -/
theorem register_creates_regular_account_witness :
    registeredAnn.status = 1 ∧ registeredAnn.status ≠ 5 :=
  register_creates_regular_account emptyStore annRegister 50 registeredAnn
    registeredAnnStore rfl

end OmniVen
